import Mathlib

/-!
Shallow embedding of `backend/services/recommendation.py` (the recommendation
engine of the dubbas platform) and proofs about it.

Modelling conventions:
* pandas DataFrames of menu items become `List Meal`; `to_dict('records')`
  becomes the identity on that list.
* Python dicts produced by the pipeline (meal fields plus optional added keys
  `similarity_score`, `predicted_rating`, `explanation`, `algorithm`) become
  the structure `MealRec`; a key that was never added is `none`.
* Python float literals 0.5, 0.3, ratings, rewards become exact rationals;
  the code only adds these constants and compares them, and every comparison
  made by the code has the same outcome over ℚ as over IEEE floats.
* Python's stable `list.sort(key=…, reverse=True)` (and pandas
  `nlargest`, which keeps first occurrences) becomes the structural stable
  insertion sort `sortByDesc`, which produces the same list as any stable
  descending sort.
* Python's substring test `pat in s` becomes list-infix on the character
  data; `str.lower()` becomes a character-wise ASCII lowering, which agrees
  with Python on every string the engine compares.
* `random.random() < 0.3` draws of `ContextualBandit.select_arms` become an
  explicit stream of booleans (`true` = the draw took the explore branch);
  `random.shuffle` in `explore_recommendations` becomes an explicit shuffled
  input list.
* the sqlite read of `_load_meals_data` becomes an `Except` input: `error`
  models the store raising, `ok rows` a successful read.  Exceptions do not
  exist in the embedding; every modelled operation is a total function, which
  is how the `try/except` "never raises" contract is rendered.
-/

/-- A row of the `menu_items` table / of the sample-meals DataFrame. -/
structure Meal where
  id : String
  name : String
  cuisine : String
  price : ℚ
  rating : ℚ
  is_vegetarian : Bool
  tags : String
deriving DecidableEq

/-- The `user_profile` dict: the keys the engine reads.  A missing
`dietary_restrictions` key and an empty list are both modelled as `[]`
(both are falsy in Python, and the code only tests truthiness and
membership). -/
structure UserProfile where
  favorite_cuisines : List String
  dietary_restrictions : List String
deriving DecidableEq

/-- A recommendation record: a meal dict plus the keys the pipeline may add.
`none` models a key that was never added to the dict. -/
structure MealRec where
  meal : Meal
  similarity_score : Option ℚ := none
  predicted_rating : Option ℚ := none
  explanation : Option String := none
  algorithm : Option String := none
deriving DecidableEq

/-- Python `str.lower()` (character-wise; agrees with Python on the ASCII
strings the engine compares). -/
def lowerStr (s : String) : String := ⟨s.data.map Char.toLower⟩

/-- Python's substring test `pat in hay`. -/
def strContains (hay pat : String) : Bool := decide (pat.data <:+: hay.data)

/-- Stable insert used by `sortByDesc`: `x` goes in front of the first
element whose key is ≤ its own, hence after every strictly greater key and
before every previously inserted equal key. -/
def insertByDesc {α : Type} (key : α → ℚ) (x : α) : List α → List α
  | [] => [x]
  | y :: ys => if key y ≤ key x then x :: y :: ys else y :: insertByDesc key x ys

/-- Stable descending sort by a rational key: the unique output of any
stable sort with `reverse=True`, hence the model of Python's `list.sort`
and of pandas `nlargest` with its default `keep='first'`. -/
def sortByDesc {α : Type} (key : α → ℚ) (l : List α) : List α :=
  l.foldr (insertByDesc key) []

/-- One pass of the loop body of
`KnowledgeBasedFiltering.filter_by_dietary_restrictions`: does the (lowered)
restriction string fire on the lowered tag string? -/
def violatesRestriction (restriction : String) (tagsLower : String) : Bool :=
  let r := lowerStr restriction
  if r = "vegetarian" then strContains tagsLower "non-veg"
  else if r = "vegan" then strContains tagsLower "dairy" || strContains tagsLower "egg"
  else if r = "gluten-free" then strContains tagsLower "gluten"
  else false

/-- The `valid` flag computed for one meal by the restriction loop. -/
def mealPassesRestrictions (restrictions : List String) (tags : String) : Bool :=
  let tagsL := lowerStr tags
  restrictions.all (fun r => !(violatesRestriction r tagsL))

/-- `KnowledgeBasedFiltering.filter_by_dietary_restrictions`, acting on raw
meal dicts. -/
def KnowledgeBasedFiltering.filter_by_dietary_restrictions
    (meals : List Meal) (restrictions : List String) : List Meal :=
  if restrictions.isEmpty then meals
  else meals.filter (fun m => mealPassesRestrictions restrictions m.tags)

/-- The same function applied to recommendation dicts (in
`RecommendationEngine.get_recommendations` it runs on the scored records;
the Python function is one and the same, reading `meal.get('tags', '')`). -/
def KnowledgeBasedFiltering.filter_recs_by_dietary_restrictions
    (recs : List MealRec) (restrictions : List String) : List MealRec :=
  if restrictions.isEmpty then recs
  else recs.filter (fun r => mealPassesRestrictions restrictions r.meal.tags)

/-- The score accumulation of `ContentBasedFiltering.get_recommendations`:
start at 0, add 0.5 on a cuisine match, add 0.3 when the profile declares a
truthy `dietary_restrictions` containing `"vegetarian"` and the meal is
vegetarian. -/
def ContentBasedFiltering.score_meal (user_profile : UserProfile) (meal : Meal) : ℚ :=
  let score : ℚ := 0
  let score := if meal.cuisine ∈ user_profile.favorite_cuisines then score + 1/2 else score
  let score :=
    if user_profile.dietary_restrictions ≠ [] ∧
        "vegetarian" ∈ user_profile.dietary_restrictions then
      (if meal.is_vegetarian then score + 3/10 else score)
    else score
  score

/-- The `explanations` list built by
`ContentBasedFiltering._generate_explanation`. -/
def ContentBasedFiltering.explanation_reasons (meal : Meal) (user_profile : UserProfile) :
    List String :=
  (if meal.cuisine ∈ user_profile.favorite_cuisines then
    ["Because you love " ++ meal.cuisine ++ " cuisine"] else []) ++
  (if meal.is_vegetarian ∧ "vegetarian" ∈ user_profile.dietary_restrictions then
    ["Vegetarian option"] else [])

/-- `ContentBasedFiltering._generate_explanation`. -/
def ContentBasedFiltering.generate_explanation (meal : Meal) (user_profile : UserProfile) :
    String :=
  let reasons := ContentBasedFiltering.explanation_reasons meal user_profile
  if reasons.isEmpty then "Matches your taste profile"
  else String.intercalate " • " reasons

/-- The scored, positively-filtered, stably-sorted record list of
`ContentBasedFiltering.get_recommendations`, before the final `[:n]`. -/
def ContentBasedFiltering.scored_sorted (meals : List Meal) (user_profile : UserProfile) :
    List MealRec :=
  let recommendations := meals.filterMap (fun meal =>
    let score := ContentBasedFiltering.score_meal user_profile meal
    if 0 < score then
      some { meal := meal
             similarity_score := some score
             explanation := some (ContentBasedFiltering.generate_explanation meal user_profile)
             algorithm := some "content_based" }
    else none)
  sortByDesc (fun r => r.similarity_score.getD 0) recommendations

/-- `ContentBasedFiltering.get_recommendations`. -/
def ContentBasedFiltering.get_recommendations (meals : List Meal)
    (user_profile : UserProfile) (n : Nat) : List MealRec :=
  (ContentBasedFiltering.scored_sorted meals user_profile).take n

/-- `ContentBasedFiltering.get_similar_items`: guard on id membership, take
the first matching row, keep same-cuisine rows (`head(n+1)`), drop the
reference id, `head(n)`; `to_dict('records')` yields plain records, so no
extra keys are added. -/
def ContentBasedFiltering.get_similar_items (meals : List Meal) (meal_id : String)
    (n : Nat) : List MealRec :=
  match meals.find? (fun m => m.id == meal_id) with
  | none => []
  | some meal =>
    let similar := (meals.filter (fun m => m.cuisine == meal.cuisine)).take (n + 1)
    let similar := (similar.filter (fun m => !(m.id == meal_id))).take n
    similar.map (fun m => { meal := m })

/-- `CollaborativeFiltering.get_recommendations`: `nlargest(n, 'rating')`
(the `rating` column always exists in the model), then attach
`predicted_rating`, a fixed explanation and the algorithm tag. -/
def CollaborativeFiltering.get_recommendations (meals : List Meal) (n : Nat) :
    List MealRec :=
  let popular := (sortByDesc (fun m => m.rating) meals).take n
  popular.map (fun meal =>
    { meal := meal
      predicted_rating := some meal.rating
      explanation := some "Popular among our users"
      algorithm := some "collaborative" })

/-- Per-arm statistics of the bandit (`{'count': …, 'sum_rewards': …}`).
An id absent from the defaultdict is modelled by `⟨0, 0⟩`. -/
structure ArmStats where
  count : Nat
  sum_rewards : ℚ
deriving DecidableEq

/-- The loop of `ContextualBandit.select_arms`: one boolean of `draws` is
consumed per arm (`true` = `random.random() < 0.3`, the explore branch);
the exploit branch keeps arms with positive observation count, otherwise
the arm is still appended whenever `len(selected) < n`. -/
def ContextualBandit.select_arms_go (arm_rewards : String → ArmStats) (n : Nat) :
    List Meal → List Bool → List Meal → List Meal
  | [], _, selected => selected
  | arm :: rest, draws, selected =>
    if draws.headD false then
      ContextualBandit.select_arms_go arm_rewards n rest draws.tail (selected ++ [arm])
    else if 0 < (arm_rewards arm.id).count then
      ContextualBandit.select_arms_go arm_rewards n rest draws.tail (selected ++ [arm])
    else if selected.length < n then
      ContextualBandit.select_arms_go arm_rewards n rest draws.tail (selected ++ [arm])
    else
      ContextualBandit.select_arms_go arm_rewards n rest draws.tail selected

/-- `ContextualBandit.select_arms`: truncate the candidates to `n_arms`,
loop over the first `n` of them, return `selected[:n]`. -/
def ContextualBandit.select_arms (n_arms : Nat) (arm_rewards : String → ArmStats)
    (available_arms : List Meal) (draws : List Bool) (n : Nat) : List Meal :=
  (ContextualBandit.select_arms_go arm_rewards n
    ((available_arms.take n_arms).take n) draws []).take n

/-- `ContextualBandit.update_feedback`: increment the arm's count and add
the reward to its cumulative sum, creating the entry if absent. -/
def ContextualBandit.update_feedback (arm_rewards : String → ArmStats)
    (arm_id : String) (reward : ℚ) : String → ArmStats :=
  fun id =>
    if id = arm_id then
      { count := (arm_rewards arm_id).count + 1
        sum_rewards := (arm_rewards arm_id).sum_rewards + reward }
    else arm_rewards id

/-- The ten hard-coded rows of `RecommendationEngine._create_sample_meals`
(note the id pattern produces `M001` … `M009`, `M0010`). -/
def sample_meals : List Meal :=
  [ ⟨"M001", "Butter Chicken", "North Indian", 350, 24/5, false, "non-veg,popular"⟩,
    ⟨"M002", "Paneer Butter Masala", "North Indian", 280, 47/10, true, "veg,popular"⟩,
    ⟨"M003", "Masala Dosa", "South Indian", 120, 49/10, true, "veg,breakfast"⟩,
    ⟨"M004", "Vada Pav", "Maharashtrian", 30, 23/5, true, "veg,snack"⟩,
    ⟨"M005", "Hyderabadi Biryani", "Hyderabadi", 350, 24/5, false, "non-veg,popular"⟩,
    ⟨"M006", "Chole Bhature", "Punjabi", 180, 9/2, true, "veg,popular"⟩,
    ⟨"M007", "Idli Sambar", "South Indian", 80, 47/10, true, "veg,breakfast"⟩,
    ⟨"M008", "Pav Bhaji", "Maharashtrian", 150, 23/5, true, "veg,street food"⟩,
    ⟨"M009", "Palak Paneer", "North Indian", 250, 9/2, true, "veg,popular"⟩,
    ⟨"M0010", "Chicken Biryani", "Hyderabadi", 320, 47/10, false, "non-veg,popular"⟩ ]

/-- `RecommendationEngine._load_meals_data`: a raised read or an empty
result both fall back to the sample meals. -/
def RecommendationEngine.load_meals_data (db_result : Except String (List Meal)) :
    List Meal :=
  match db_result with
  | Except.error _ => sample_meals
  | Except.ok rows => if 0 < rows.length then rows else sample_meals

/-- `RecommendationEngine._filter_candidates`: returns every catalog record
(the city and time-of-day arguments are ignored by the source). -/
def RecommendationEngine.filter_candidates (meals : List Meal) : List Meal := meals

/-- `RecommendationEngine.get_recommendations`: candidates, content-based
scoring truncated to `limit`, all-or-nothing collaborative fallback,
dietary filtering when a preferences dict was given, final `[:limit]`. -/
def RecommendationEngine.get_recommendations (meals : List Meal)
    (preferences : Option UserProfile) (limit : Nat) : List MealRec :=
  let candidates := RecommendationEngine.filter_candidates meals
  if candidates.length = 0 then []
  else
    let content_recs :=
      ContentBasedFiltering.get_recommendations meals (preferences.getD ⟨[], []⟩) limit
    let content_recs :=
      if content_recs.isEmpty then CollaborativeFiltering.get_recommendations meals limit
      else content_recs
    let content_recs :=
      match preferences with
      | some p =>
        KnowledgeBasedFiltering.filter_recs_by_dietary_restrictions content_recs
          p.dietary_restrictions
      | none => content_recs
    content_recs.take limit

/-- `RecommendationEngine.explore_recommendations`: the shuffled candidate
list is an explicit input; the first `limit` get a fixed explanation and
the `exploration` tag. -/
def RecommendationEngine.explore_recommendations (shuffled_candidates : List Meal)
    (limit : Nat) : List MealRec :=
  (shuffled_candidates.take limit).map (fun meal =>
    { meal := meal
      explanation := some "Try something new! We think you might like this"
      algorithm := some "exploration" })

/-- `RecommendationEngine.get_similar_items` delegates to the content-based
recommender. -/
def RecommendationEngine.get_similar_items (meals : List Meal) (meal_id : String)
    (limit : Nat) : List MealRec :=
  ContentBasedFiltering.get_similar_items meals meal_id limit

/-- `RecommendationEngine.get_popular_items`: sort the candidates by rating
descending (the `rating` column always exists in the model), set the fixed
explanation on the first `limit`, return them. -/
def RecommendationEngine.get_popular_items (meals : List Meal) (limit : Nat) :
    List MealRec :=
  let candidates := sortByDesc (fun m => m.rating) (RecommendationEngine.filter_candidates meals)
  (candidates.take limit).map (fun meal =>
    { meal := meal, explanation := some "Popular among our users" })

/-- `RecommendationEngine.get_trending_items` is a direct alias of the
popular-items path. -/
def RecommendationEngine.get_trending_items (meals : List Meal) (days limit : Nat) :
    List MealRec :=
  RecommendationEngine.get_popular_items meals limit

/-- The reward derivation of `RecommendationEngine.record_interaction`. -/
def RecommendationEngine.interaction_reward (liked : Option Bool) (rating : Option ℚ) : ℚ :=
  match liked with
  | some b => if b then 1 else 0
  | none =>
    match rating with
    | some r => r / 5
    | none => 1/2

/-- `RecommendationEngine.record_interaction`, bandit-state part: the
derived reward is handed to `update_feedback` unchanged (the database write
has no effect on the bandit state and is not modelled). -/
def RecommendationEngine.record_interaction (arm_rewards : String → ArmStats)
    (meal_id : String) (liked : Option Bool) (rating : Option ℚ) : String → ArmStats :=
  ContextualBandit.update_feedback arm_rewards meal_id
    (RecommendationEngine.interaction_reward liked rating)

/-! ### Helper lemmas -/

theorem mem_insertByDesc {α : Type} (key : α → ℚ) (x a : α) (l : List α) :
    a ∈ insertByDesc key x l ↔ a = x ∨ a ∈ l := by
  induction l with
  | nil => simp [insertByDesc]
  | cons y ys ih =>
    by_cases h : key y ≤ key x
    · simp [insertByDesc, h]
    · simp only [insertByDesc, if_neg h, List.mem_cons, ih]
      tauto

theorem mem_sortByDesc {α : Type} (key : α → ℚ) (a : α) (l : List α) :
    a ∈ sortByDesc key l ↔ a ∈ l := by
  induction l with
  | nil => simp [sortByDesc]
  | cons y ys ih =>
    simp only [sortByDesc, List.foldr_cons, List.mem_cons]
    rw [mem_insertByDesc]
    simp only [sortByDesc] at ih
    rw [ih]

theorem string_ne_empty_of_length_pos {s : String} (h : 0 < s.length) : s ≠ "" := by
  intro he
  rw [he] at h
  simp [String.length] at h

theorem intercalate_go_length (s : String) (as : List String) (acc : String) :
    acc.length ≤ (String.intercalate.go acc s as).length := by
  induction as generalizing acc with
  | nil => simp [String.intercalate.go]
  | cons a rest ih =>
    have h1 : acc.length ≤ (acc ++ s ++ a).length := by
      simp only [String.length_append]
      omega
    have h3 : String.intercalate.go acc s (a :: rest) =
        String.intercalate.go (acc ++ s ++ a) s rest := by
      simp [String.intercalate.go]
    rw [h3]
    exact le_trans h1 (ih (acc ++ s ++ a))


theorem intercalate_ne_empty (s : String) (a : String) (as : List String)
    (ha : 0 < a.length) : String.intercalate s (a :: as) ≠ "" := by
  apply string_ne_empty_of_length_pos
  have : String.intercalate s (a :: as) = String.intercalate.go a s as := rfl
  rw [this]
  exact lt_of_lt_of_le ha (intercalate_go_length s as a)

theorem generate_explanation_ne_empty (meal : Meal) (user_profile : UserProfile) :
    ContentBasedFiltering.generate_explanation meal user_profile ≠ "" := by
  unfold ContentBasedFiltering.generate_explanation ContentBasedFiltering.explanation_reasons
  by_cases h1 : meal.cuisine ∈ user_profile.favorite_cuisines <;>
    by_cases h2 : meal.is_vegetarian ∧ "vegetarian" ∈ user_profile.dietary_restrictions
  · simp only [if_pos h1, if_pos h2, List.cons_append, List.nil_append, List.isEmpty_cons,
      if_neg Bool.false_ne_true]
    apply intercalate_ne_empty
    have h17 : (0:Nat) < "Because you love ".length := by decide
    simp only [String.length_append]
    omega
  · simp only [if_pos h1, if_neg h2, List.append_nil, List.isEmpty_cons,
      if_neg Bool.false_ne_true]
    apply intercalate_ne_empty
    have h17 : (0:Nat) < "Because you love ".length := by decide
    simp only [String.length_append]
    omega
  · simp only [if_neg h1, if_pos h2, List.nil_append, List.isEmpty_cons,
      if_neg Bool.false_ne_true]
    apply intercalate_ne_empty
    decide
  · simp only [if_neg h1, if_neg h2, List.append_nil, List.isEmpty_nil, if_pos rfl]
    decide

theorem select_arms_go_eq_append (arm_rewards : String → ArmStats) (n : Nat)
    (arms : List Meal) (draws : List Bool) (selected : List Meal)
    (h : selected.length + arms.length ≤ n) :
    ContextualBandit.select_arms_go arm_rewards n arms draws selected = selected ++ arms := by
  induction arms generalizing draws selected with
  | nil => simp [ContextualBandit.select_arms_go]
  | cons arm rest ih =>
    have hlt : selected.length < n := by
      simp only [List.length_cons] at h
      omega
    have hnext : (selected ++ [arm]).length + rest.length ≤ n := by
      simp only [List.length_append, List.length_cons, List.length_nil] at *
      omega
    unfold ContextualBandit.select_arms_go
    by_cases hd : draws.headD false
    · rw [if_pos hd, ih draws.tail _ hnext]
      simp
    · rw [if_neg hd]
      by_cases hc : 0 < (arm_rewards arm.id).count
      · rw [if_pos hc, ih draws.tail _ hnext]
        simp
      · rw [if_neg hc, if_pos hlt, ih draws.tail _ hnext]
        simp

theorem select_arms_eq_take (n_arms : Nat) (arm_rewards : String → ArmStats)
    (available_arms : List Meal) (draws : List Bool) (n : Nat) :
    ContextualBandit.select_arms n_arms arm_rewards available_arms draws n =
      (available_arms.take n_arms).take n := by
  unfold ContextualBandit.select_arms
  rw [select_arms_go_eq_append]
  · rw [List.nil_append, List.take_take]
    simp
  · simp only [List.length_nil, Nat.zero_add]
    exact List.length_take_le n _

/-- The three restriction strings the filter knows, after lowering. -/
def knownRestriction (r : String) : Bool :=
  lowerStr r = "vegetarian" || lowerStr r = "vegan" || lowerStr r = "gluten-free"

theorem violates_of_unknown (r : String) (tags : String)
    (h : knownRestriction r = false) : violatesRestriction r tags = false := by
  unfold knownRestriction at h
  simp only [Bool.or_eq_false_iff, decide_eq_false_iff_not] at h
  unfold violatesRestriction
  simp [h.1.1, h.1.2, h.2]

/-! ### Claim-side predicates -/

/-- The conflict relation of claim C1, written from the claim's words: a
restriction string (matched case-insensitively) conflicts with a tag string
when the corresponding forbidden tag occurs in it. -/
def restriction_conflicts (restriction : String) (tags : String) : Prop :=
  (lowerStr restriction = "vegetarian" ∧ "non-veg".data <:+: (lowerStr tags).data)
  ∨ (lowerStr restriction = "vegan" ∧
      ("dairy".data <:+: (lowerStr tags).data ∨ "egg".data <:+: (lowerStr tags).data))
  ∨ (lowerStr restriction = "gluten-free" ∧ "gluten".data <:+: (lowerStr tags).data)

theorem violates_iff_conflicts (r tags : String) :
    violatesRestriction r (lowerStr tags) = true ↔ restriction_conflicts r tags := by
  unfold violatesRestriction restriction_conflicts strContains
  by_cases h1 : lowerStr r = "vegetarian"
  · simp [h1]
  · by_cases h2 : lowerStr r = "vegan"
    · simp [h1, h2]
    · by_cases h3 : lowerStr r = "gluten-free"
      · simp [h1, h2, h3]
      · simp [h1, h2, h3]

theorem passes_eq_filter_known (restrictions : List String) (tags : String) :
    mealPassesRestrictions restrictions tags =
      mealPassesRestrictions (restrictions.filter knownRestriction) tags := by
  unfold mealPassesRestrictions
  induction restrictions with
  | nil => rfl
  | cons r rs ih =>
    by_cases hk : knownRestriction r
    · simp [List.filter_cons, hk, List.all_cons, ih]
    · have hv := violates_of_unknown r (lowerStr tags) (by simpa using hk)
      simp only [List.filter_cons, List.all_cons, hv, Bool.not_false, Bool.true_and]
      rw [if_neg (by simpa using hk)]
      exact ih

/-- C1: on every candidate list and restriction list, nothing returned by
`filter_by_dietary_restrictions` has a tag conflicting with any applied
restriction (restriction strings matched case-insensitively), and unknown
restriction strings exclude nothing: dropping them from the restriction
list leaves the output unchanged (and, the embedding being total, they
cause no error). -/
theorem C1_dietary_filter (meals : List Meal) (restrictions : List String) :
    (∀ m ∈ KnowledgeBasedFiltering.filter_by_dietary_restrictions meals restrictions,
       ∀ r ∈ restrictions, ¬ restriction_conflicts r m.tags)
    ∧ KnowledgeBasedFiltering.filter_by_dietary_restrictions meals restrictions =
        KnowledgeBasedFiltering.filter_by_dietary_restrictions meals
          (restrictions.filter knownRestriction) := by
  constructor
  · intro m hm r hr
    have hne : ¬ restrictions.isEmpty := by
      cases restrictions with
      | nil => cases hr
      | cons a as => simp
    unfold KnowledgeBasedFiltering.filter_by_dietary_restrictions at hm
    rw [if_neg hne] at hm
    rw [List.mem_filter] at hm
    have hall := (List.all_eq_true.mp hm.2) r hr
    rw [← violates_iff_conflicts]
    simp only [Bool.not_eq_true]
    simpa using hall
  · unfold KnowledgeBasedFiltering.filter_by_dietary_restrictions
    by_cases h0 : restrictions.isEmpty
    · have : restrictions = [] := by
        cases restrictions with
        | nil => rfl
        | cons a as => simp at h0
      subst this
      simp
    · rw [if_neg h0]
      by_cases h1 : (restrictions.filter knownRestriction).isEmpty
      · rw [if_pos h1]
        apply List.filter_eq_self.mpr
        intro m _
        rw [passes_eq_filter_known]
        have : restrictions.filter knownRestriction = [] := by
          cases hx : restrictions.filter knownRestriction with
          | nil => rfl
          | cons a as => rw [hx] at h1; simp at h1
        rw [this]
        rfl
      · rw [if_neg h1]
        apply List.filter_congr
        intro m _
        rw [passes_eq_filter_known]

unseal Rat.add Rat.mul Rat.inv in
/-- Witness for C1 at a concrete input: the sample catalog filtered by
`["vegetarian"]` keeps `M002`, whose tags conflict with no applied
restriction. -/
theorem C1_dietary_filter_witness :
    ¬ restriction_conflicts "vegetarian" "veg,popular" :=
  (C1_dietary_filter sample_meals ["vegetarian"]).1
    ⟨"M002", "Paneer Butter Masala", "North Indian", 280, 47/10, true, "veg,popular"⟩
    (by decide) "vegetarian" (by decide)

theorem score_meal_closed_form (p : UserProfile) (meal : Meal) :
    ContentBasedFiltering.score_meal p meal =
      (if meal.cuisine ∈ p.favorite_cuisines then (1:ℚ)/2 else 0) +
      (if "vegetarian" ∈ p.dietary_restrictions ∧ meal.is_vegetarian then (3:ℚ)/10 else 0) := by
  unfold ContentBasedFiltering.score_meal
  by_cases hv : "vegetarian" ∈ p.dietary_restrictions
  · have hne : p.dietary_restrictions ≠ [] := List.ne_nil_of_mem hv
    by_cases hc : meal.cuisine ∈ p.favorite_cuisines <;>
      by_cases hveg : meal.is_vegetarian = true <;>
        simp [hv, hne, hc, hveg]
  · have hng : ¬ (p.dietary_restrictions ≠ [] ∧ "vegetarian" ∈ p.dietary_restrictions) :=
      fun h => hv h.2
    have hng2 : ¬ ("vegetarian" ∈ p.dietary_restrictions ∧ meal.is_vegetarian = true) :=
      fun h => hv h.1
    by_cases hc : meal.cuisine ∈ p.favorite_cuisines <;> simp [hng, hng2, hc]

theorem score_meal_nonneg (p : UserProfile) (meal : Meal) :
    0 ≤ ContentBasedFiltering.score_meal p meal := by
  rw [score_meal_closed_form]
  by_cases hc : meal.cuisine ∈ p.favorite_cuisines <;>
    by_cases hv : "vegetarian" ∈ p.dietary_restrictions ∧ meal.is_vegetarian = true <;>
      simp [hc, hv] <;> norm_num

theorem reasons_ne_of_score_pos (p : UserProfile) (meal : Meal)
    (h : 0 < ContentBasedFiltering.score_meal p meal) :
    ContentBasedFiltering.explanation_reasons meal p ≠ [] := by
  rw [score_meal_closed_form] at h
  unfold ContentBasedFiltering.explanation_reasons
  by_cases hc : meal.cuisine ∈ p.favorite_cuisines
  · simp [hc]
  · by_cases hx : meal.is_vegetarian = true ∧ "vegetarian" ∈ p.dietary_restrictions
    · simp [hc, hx]
    · exfalso
      have hx2 : ¬ ("vegetarian" ∈ p.dietary_restrictions ∧ meal.is_vegetarian = true) :=
        fun hh => hx ⟨hh.2, hh.1⟩
      rw [if_neg hc, if_neg hx2] at h
      simp at h

theorem mem_content_recommendations {meals : List Meal} {p : UserProfile} {n : Nat}
    {r : MealRec} (hr : r ∈ ContentBasedFiltering.get_recommendations meals p n) :
    r.meal ∈ meals ∧
    r.similarity_score = some (ContentBasedFiltering.score_meal p r.meal) ∧
    0 < ContentBasedFiltering.score_meal p r.meal ∧
    r.explanation = some (ContentBasedFiltering.generate_explanation r.meal p) ∧
    r.algorithm = some "content_based" := by
  unfold ContentBasedFiltering.get_recommendations ContentBasedFiltering.scored_sorted at hr
  have hr2 := List.take_subset _ _ hr
  rw [mem_sortByDesc, List.mem_filterMap] at hr2
  obtain ⟨meal, hmeal, hf⟩ := hr2
  simp only [] at hf
  by_cases hs : 0 < ContentBasedFiltering.score_meal p meal
  · rw [if_pos hs, Option.some.injEq] at hf
    subst hf
    exact ⟨hmeal, rfl, hs, rfl, rfl⟩
  · rw [if_neg hs] at hf
    cases hf

/-- C2: the content scorer's score starts at 0, adds 0.5 exactly on a
cuisine match and 0.3 exactly when the profile declares a `"vegetarian"`
restriction and the item is vegetarian; every returned record carries a
positive score (zero-scored items are excluded from the output); and every
returned record for which no explanation reason matched has the fallback
explanation — vacuously, because a positive score forces at least one
matched reason, which the final conjunct also proves.  (The code's
fallback literal, reachable only outside the scorer's output, is
`"Matches your taste profile"`.) -/
theorem C2_content_scorer (meals : List Meal) (p : UserProfile) (n : Nat) :
    (∀ meal : Meal, ContentBasedFiltering.score_meal p meal =
        (if meal.cuisine ∈ p.favorite_cuisines then (1:ℚ)/2 else 0) +
        (if "vegetarian" ∈ p.dietary_restrictions ∧ meal.is_vegetarian then (3:ℚ)/10 else 0))
    ∧ (∀ r ∈ ContentBasedFiltering.get_recommendations meals p n,
        r.similarity_score = some (ContentBasedFiltering.score_meal p r.meal) ∧
        0 < ContentBasedFiltering.score_meal p r.meal)
    ∧ (∀ r ∈ ContentBasedFiltering.get_recommendations meals p n,
        (ContentBasedFiltering.explanation_reasons r.meal p = [] →
          r.explanation = some "Recommended for you") ∧
        ContentBasedFiltering.explanation_reasons r.meal p ≠ []) := by
  refine ⟨score_meal_closed_form p, fun r hr => ?_, fun r hr => ?_⟩
  · obtain ⟨_, hscore, hpos, _, _⟩ := mem_content_recommendations hr
    exact ⟨hscore, hpos⟩
  · obtain ⟨_, _, hpos, _, _⟩ := mem_content_recommendations hr
    have hne := reasons_ne_of_score_pos p r.meal hpos
    exact ⟨fun hcon => absurd hcon hne, hne⟩

unseal Rat.add Rat.mul Rat.inv in
/-- Witness for C2 at a concrete input: in the sample catalog under a
profile loving North Indian food, the record for `M002` is returned with a
positive score, and its matched-reason list is nonempty. -/
theorem C2_content_scorer_witness :
    ({ meal := ⟨"M002", "Paneer Butter Masala", "North Indian", 280, 47/10, true, "veg,popular"⟩,
       similarity_score := some ((1:ℚ)/2),
       explanation := some "Because you love North Indian cuisine",
       algorithm := some "content_based" } : MealRec).similarity_score =
      some (ContentBasedFiltering.score_meal ⟨["North Indian"], []⟩
        ⟨"M002", "Paneer Butter Masala", "North Indian", 280, 47/10, true, "veg,popular"⟩) :=
  ((C2_content_scorer sample_meals ⟨["North Indian"], []⟩ 10).2.1 _ (by decide)).1

/-- Nonempty-explanation property of claim C3. -/
def nonempty_explanation (r : MealRec) : Prop :=
  ∃ s, r.explanation = some s ∧ s ≠ ""

theorem mem_collab_recommendations {meals : List Meal} {n : Nat} {r : MealRec}
    (hr : r ∈ CollaborativeFiltering.get_recommendations meals n) :
    r.explanation = some "Popular among our users" := by
  unfold CollaborativeFiltering.get_recommendations at hr
  simp only [List.mem_map] at hr
  obtain ⟨m, _, he⟩ := hr
  rw [← he]

theorem filter_recs_subset (recs : List MealRec) (restrictions : List String) :
    KnowledgeBasedFiltering.filter_recs_by_dietary_restrictions recs restrictions ⊆ recs := by
  unfold KnowledgeBasedFiltering.filter_recs_by_dietary_restrictions
  by_cases h : restrictions.isEmpty
  · rw [if_pos h]
    exact fun a ha => ha
  · rw [if_neg h]
    exact fun a ha => List.mem_of_mem_filter ha

theorem mem_engine_recommendations {meals : List Meal} {prefs : Option UserProfile}
    {limit : Nat} {r : MealRec}
    (hr : r ∈ RecommendationEngine.get_recommendations meals prefs limit) :
    r ∈ ContentBasedFiltering.get_recommendations meals (prefs.getD ⟨[], []⟩) limit ∨
    r ∈ CollaborativeFiltering.get_recommendations meals limit := by
  unfold RecommendationEngine.get_recommendations at hr
  by_cases h0 : (RecommendationEngine.filter_candidates meals).length = 0
  · rw [if_pos h0] at hr
    cases hr
  · rw [if_neg h0] at hr
    simp only [] at hr
    have hr2 := List.take_subset _ _ hr
    have hr3 : r ∈
        (if (ContentBasedFiltering.get_recommendations meals (prefs.getD ⟨[], []⟩) limit).isEmpty
         then CollaborativeFiltering.get_recommendations meals limit
         else ContentBasedFiltering.get_recommendations meals (prefs.getD ⟨[], []⟩) limit) := by
      cases prefs with
      | none => exact hr2
      | some p => exact filter_recs_subset _ _ hr2
    by_cases hc :
        (ContentBasedFiltering.get_recommendations meals (prefs.getD ⟨[], []⟩) limit).isEmpty
    · rw [if_pos hc] at hr3
      exact Or.inr hr3
    · rw [if_neg hc] at hr3
      exact Or.inl hr3

theorem mem_similar_items {meals : List Meal} {meal_id : String} {n : Nat} {r : MealRec}
    (hr : r ∈ RecommendationEngine.get_similar_items meals meal_id n) :
    ∃ ref, meals.find? (fun m => m.id == meal_id) = some ref ∧
      r.meal.cuisine = ref.cuisine ∧ r.meal.id ≠ meal_id ∧ r.explanation = none := by
  unfold RecommendationEngine.get_similar_items ContentBasedFiltering.get_similar_items at hr
  cases hfind : meals.find? (fun m => m.id == meal_id) with
  | none =>
    rw [hfind] at hr
    cases hr
  | some ref =>
    rw [hfind] at hr
    simp only [] at hr
    rw [List.mem_map] at hr
    obtain ⟨m, hm, he⟩ := hr
    have hm2 := List.take_subset _ _ hm
    rw [List.mem_filter] at hm2
    obtain ⟨hm3, hid⟩ := hm2
    have hm4 := List.take_subset _ _ hm3
    rw [List.mem_filter] at hm4
    obtain ⟨_, hcui⟩ := hm4
    refine ⟨ref, rfl, ?_, ?_, ?_⟩
    · rw [← he]
      exact beq_iff_eq.mp hcui
    · rw [← he]
      simpa using hid
    · rw [← he]

/-- C3 (amended): every record returned by `get_recommendations`,
`explore_recommendations`, `get_popular_items` and `get_trending_items`
carries a non-empty explanation (with a generic fallback substituted when
no rule matches); `get_similar_items`, however, returns raw catalog records
that carry NO explanation at all. -/
theorem C3_explanations (meals shuffled : List Meal) (prefs : Option UserProfile)
    (meal_id : String) (days limit : Nat) :
    (∀ r ∈ RecommendationEngine.get_recommendations meals prefs limit,
        nonempty_explanation r)
    ∧ (∀ r ∈ RecommendationEngine.explore_recommendations shuffled limit,
        nonempty_explanation r)
    ∧ (∀ r ∈ RecommendationEngine.get_popular_items meals limit,
        nonempty_explanation r)
    ∧ (∀ r ∈ RecommendationEngine.get_trending_items meals days limit,
        nonempty_explanation r)
    ∧ (∀ r ∈ RecommendationEngine.get_similar_items meals meal_id limit,
        r.explanation = none) := by
  have hpop : ∀ r ∈ RecommendationEngine.get_popular_items meals limit,
      nonempty_explanation r := by
    intro r hr
    unfold RecommendationEngine.get_popular_items at hr
    simp only [List.mem_map] at hr
    obtain ⟨m, _, he⟩ := hr
    exact ⟨"Popular among our users", by rw [← he], by decide⟩
  refine ⟨?_, ?_, hpop, hpop, ?_⟩
  · intro r hr
    rcases mem_engine_recommendations hr with hc | hcol
    · obtain ⟨_, _, _, hexp, _⟩ := mem_content_recommendations hc
      exact ⟨_, hexp, generate_explanation_ne_empty _ _⟩
    · exact ⟨"Popular among our users", mem_collab_recommendations hcol, by decide⟩
  · intro r hr
    unfold RecommendationEngine.explore_recommendations at hr
    simp only [List.mem_map] at hr
    obtain ⟨m, _, he⟩ := hr
    exact ⟨"Try something new! We think you might like this", by rw [← he], by decide⟩
  · intro r hr
    obtain ⟨_, _, _, _, hexp⟩ := mem_similar_items hr
    exact hexp

/-- Counterexample to C3 as stated: a concrete three-meal catalog on which
`get_similar_items` returns exactly one record, and that record's
explanation field is absent (`none`), not a non-empty string. -/
theorem C3_counterexample :
    (RecommendationEngine.get_similar_items
      [⟨"M1", "One", "X", 100, 4, true, "veg"⟩,
       ⟨"M2", "Two", "Y", 100, 4, true, "veg"⟩,
       ⟨"M3", "Three", "X", 100, 4, true, "veg"⟩] "M1" 5).map MealRec.explanation =
      [none] := by
  decide

/-- Witness for C3 at a concrete input: an exploration record carries the
fixed non-empty discovery explanation. -/
theorem C3_explanations_witness :
    nonempty_explanation
      { meal := ⟨"W1", "W", "X", 100, 4, true, "veg"⟩,
        explanation := some "Try something new! We think you might like this",
        algorithm := some "exploration" } :=
  (C3_explanations [] [⟨"W1", "W", "X", 100, 4, true, "veg"⟩] none "x" 0 5).2.1 _
    (by decide)

/-- Two concrete arms for the bandit counterexamples. -/
def armA : Meal := ⟨"A", "Arm A", "X", 100, 4, true, "veg"⟩

/-- Second concrete arm. -/
def armB : Meal := ⟨"B", "Arm B", "X", 100, 4, true, "veg"⟩

/-- Bandit statistics in which only arm `"B"` has been observed. -/
def observedB : String → ArmStats := fun id => if id = "B" then ⟨1, 1⟩ else ⟨0, 0⟩

/-- Counterexample to C4 as stated: with limit 1, the candidate list
`[armA, armB]` contains one OBSERVED arm (`armB`, count ≥ 1 = limit), every
draw takes the exploit branch (`false`), yet the UNSEEN arm `armA` is the
entire output: the exploit branch never skips an unseen arm, because the
guard `len(selected) < n` always holds while iterating over
`available[:n]`. -/
theorem C4_counterexample :
    ContextualBandit.select_arms 100 observedB [armA, armB] [false, false] 1 = [armA]
    ∧ (observedB "A").count = 0 ∧ 0 < (observedB "B").count := by
  decide

/-- C4 (amended): `select_arms` reads one draw per arm and branches on
explore/exploit and on the arm's statistics, but every branch appends the
arm (the unseen-arm fallback's guard `len(selected) < n` can never fail
while iterating over `available[:n]`), so the output is always the first
`min(n, n_arms, len(candidates))` candidates in order — irrespective of the
draws and of the statistics; in particular UNSEEN arms are returned even
when OBSERVED arms alone could fill the limit. -/
theorem C4_select_arms_appends_every_arm (n_arms : Nat) (arm_rewards : String → ArmStats)
    (available_arms : List Meal) (draws : List Bool) (n : Nat) :
    ContextualBandit.select_arms n_arms arm_rewards available_arms draws n =
      (available_arms.take n_arms).take n :=
  select_arms_eq_take n_arms arm_rewards available_arms draws n

/-- Counterexample to C10 as stated: with the constructor argument
`n_arms = 1`, `select_arms` on two candidates with `n = 2` returns one arm,
not the first `min(2, 2)` arms. -/
theorem C10_counterexample :
    ContextualBandit.select_arms 1 (fun _ => ⟨0, 0⟩) [armA, armB] [] 2 ≠
      [armA, armB].take (min 2 [armA, armB].length) := by
  decide

/-- C10 (amended): `select_arms` is a deterministic function of the
candidate list and the configured `n_arms` cap alone — for any two draw
streams and any two statistics states the output is identical, namely the
first `min(n, n_arms, len(candidates))` candidates in input order.  (The
claim's `min(n, len)` holds whenever `n ≤ n_arms`, e.g. for the default
`n_arms = 100` cap and requests of at most 100.) -/
theorem C10_select_arms_deterministic (n_arms : Nat) (s1 s2 : String → ArmStats)
    (arms : List Meal) (d1 d2 : List Bool) (n : Nat) :
    ContextualBandit.select_arms n_arms s1 arms d1 n =
      ContextualBandit.select_arms n_arms s2 arms d2 n
    ∧ ContextualBandit.select_arms n_arms s1 arms d1 n = (arms.take n_arms).take n := by
  rw [select_arms_eq_take, select_arms_eq_take]
  exact ⟨rfl, rfl⟩

/-- The ordering claim C5 asserts, written from the spec's words: dietary-
filter the FULL positively-scored sorted candidate sequence, and only then
truncate to `limit`. -/
def spec_filter_before_truncate (meals : List Meal) (p : UserProfile) (limit : Nat) :
    List MealRec :=
  (KnowledgeBasedFiltering.filter_recs_by_dietary_restrictions
    (ContentBasedFiltering.scored_sorted meals p) p.dietary_restrictions).take limit

/-- A meal whose tags trip the gluten-free rule. -/
def glutenMeal : Meal := ⟨"A", "Meal A", "X", 100, 4, true, "gluten"⟩

/-- An untagged meal. -/
def plainMealB : Meal := ⟨"B", "Meal B", "X", 100, 4, true, ""⟩

/-- Another untagged meal. -/
def plainMealC : Meal := ⟨"C", "Meal C", "X", 100, 4, true, ""⟩

/-- A profile loving cuisine X and declaring gluten-free. -/
def glutenFreeProfile : UserProfile := ⟨["X"], ["gluten-free"]⟩

unseal Rat.add Rat.mul Rat.inv in
/-- Counterexample to C5 as stated: three candidates all score 0.5, the
scorer truncates to the 2 first of them, the filter then removes `Meal A`,
and the engine returns 1 record — while filtering before truncation would
return 2 (`Meal B`, `Meal C`).  The filtered-out candidate is NOT replaced
and the result falls short of the limit. -/
theorem C5_counterexample :
    RecommendationEngine.get_recommendations [glutenMeal, plainMealB, plainMealC]
        (some glutenFreeProfile) 2 ≠
      spec_filter_before_truncate [glutenMeal, plainMealB, plainMealC]
        glutenFreeProfile 2
    ∧ (RecommendationEngine.get_recommendations [glutenMeal, plainMealB, plainMealC]
        (some glutenFreeProfile) 2).length = 1
    ∧ (spec_filter_before_truncate [glutenMeal, plainMealB, plainMealC]
        glutenFreeProfile 2).length = 2 := by
  decide

/-- C5 (amended): in `get_recommendations` the dietary filter runs on the
scorer's output that is ALREADY truncated to `limit` (the engine's final
`[:limit]` is then a no-op), so candidates removed by the filter are not
replaced and the result can fall short of `limit` even when more than
`limit` candidates score above zero. -/
theorem C5_filter_after_truncation (meals : List Meal) (p : UserProfile) (limit : Nat)
    (h : ContentBasedFiltering.get_recommendations meals p limit ≠ []) :
    RecommendationEngine.get_recommendations meals (some p) limit =
      KnowledgeBasedFiltering.filter_recs_by_dietary_restrictions
        (ContentBasedFiltering.get_recommendations meals p limit)
        p.dietary_restrictions := by
  have hm : ¬ (RecommendationEngine.filter_candidates meals).length = 0 := by
    intro h0
    apply h
    have hnil : meals = [] := List.length_eq_zero.mp h0
    subst hnil
    simp [ContentBasedFiltering.get_recommendations, ContentBasedFiltering.scored_sorted,
      sortByDesc]
  have hie : (ContentBasedFiltering.get_recommendations meals p limit).isEmpty = false := by
    cases hx : ContentBasedFiltering.get_recommendations meals p limit with
    | nil => exact absurd hx h
    | cons a as => rfl
  unfold RecommendationEngine.get_recommendations
  rw [if_neg hm]
  simp only [Option.getD, hie, Bool.false_eq_true, if_false]
  apply List.take_of_length_le
  have h1 : (KnowledgeBasedFiltering.filter_recs_by_dietary_restrictions
      (ContentBasedFiltering.get_recommendations meals p limit)
      p.dietary_restrictions).length ≤
      (ContentBasedFiltering.get_recommendations meals p limit).length := by
    unfold KnowledgeBasedFiltering.filter_recs_by_dietary_restrictions
    by_cases hre : p.dietary_restrictions.isEmpty
    · rw [if_pos hre]
    · rw [if_neg hre]
      exact List.length_filter_le _ _
  have h2 : (ContentBasedFiltering.get_recommendations meals p limit).length ≤ limit :=
    List.length_take_le _ _
  omega

unseal Rat.add Rat.mul Rat.inv in
/-- Witness for C5 at a concrete input: the gluten scenario instantiates
the amended ordering equation. -/
theorem C5_filter_after_truncation_witness :
    RecommendationEngine.get_recommendations [glutenMeal, plainMealB, plainMealC]
        (some glutenFreeProfile) 2 =
      KnowledgeBasedFiltering.filter_recs_by_dietary_restrictions
        (ContentBasedFiltering.get_recommendations [glutenMeal, plainMealB, plainMealC]
          glutenFreeProfile 2)
        glutenFreeProfile.dietary_restrictions :=
  C5_filter_after_truncation [glutenMeal, plainMealB, plainMealC] glutenFreeProfile 2
    (by decide)

/-- First meal of the spec's concrete scenario. -/
def scenario_M1 : Meal := ⟨"M1", "Meal One", "North Indian", 100, 4, true, "veg,popular"⟩

/-- Second meal of the spec's concrete scenario. -/
def scenario_M2 : Meal := ⟨"M2", "Meal Two", "South Indian", 100, 4, true, "veg,breakfast"⟩

/-- The scenario's profile: loves North Indian, no restrictions. -/
def scenario_profile : UserProfile := ⟨["North Indian"], []⟩

unseal Rat.add Rat.mul Rat.inv in
/-- Counterexample to C6 as stated: on the scenario catalog the engine
returns one record, not the claimed two — `M2` scores 0, is excluded by the
content scorer, and is NOT backfilled by the popularity scorer (that
fallback runs only when the content scorer returns nothing at all). -/
theorem C6_counterexample :
    (RecommendationEngine.get_recommendations [scenario_M1, scenario_M2]
      (some scenario_profile) 2).length = 1 := by
  decide

unseal Rat.add Rat.mul Rat.inv in
/-- C6 (amended): on the scenario catalog, `get_recommendations(limit=2)`
returns exactly `[M1]`, scored 0.5 with explanation "Because you love
North Indian cuisine"; `M2` (scored 0) is excluded by the content scorer
and not backfilled, because the popularity fallback is all-or-nothing. -/
theorem C6_scenario :
    RecommendationEngine.get_recommendations [scenario_M1, scenario_M2]
        (some scenario_profile) 2 =
      [{ meal := scenario_M1,
         similarity_score := some ((1:ℚ)/2),
         explanation := some "Because you love North Indian cuisine",
         algorithm := some "content_based" }] := by
  decide

/-- C7: `get_similar_items` never returns the reference meal id, returns
only items whose cuisine equals the cuisine of the reference item (the
first catalog row with the requested id), and returns the empty list when
the id does not occur in the catalog. -/
theorem C7_similar_items (meals : List Meal) (meal_id : String) (n : Nat) :
    (∀ r ∈ RecommendationEngine.get_similar_items meals meal_id n,
        r.meal.id ≠ meal_id)
    ∧ (∀ ref, meals.find? (fun m => m.id == meal_id) = some ref →
        ∀ r ∈ RecommendationEngine.get_similar_items meals meal_id n,
          r.meal.cuisine = ref.cuisine)
    ∧ ((∀ m ∈ meals, m.id ≠ meal_id) →
        RecommendationEngine.get_similar_items meals meal_id n = []) := by
  refine ⟨?_, ?_, ?_⟩
  · intro r hr
    obtain ⟨_, _, _, hid, _⟩ := mem_similar_items hr
    exact hid
  · intro ref href r hr
    obtain ⟨ref2, href2, hcui, _, _⟩ := mem_similar_items hr
    rw [href] at href2
    cases href2
    exact hcui
  · intro hall
    have hfind : meals.find? (fun m => m.id == meal_id) = none := by
      rw [List.find?_eq_none]
      intro m hm
      simpa using hall m hm
    unfold RecommendationEngine.get_similar_items ContentBasedFiltering.get_similar_items
    rw [hfind]

/-- Witness for C7 at a concrete input: no sample meal has id `"ZZZ"`, so
the similar-items lookup returns the empty list. -/
theorem C7_similar_items_witness :
    RecommendationEngine.get_similar_items sample_meals "ZZZ" 5 = [] :=
  (C7_similar_items sample_meals "ZZZ" 5).2.2 (by decide)

/-- The empty bandit state (no arm ever observed). -/
def zero_arm_rewards : String → ArmStats := fun _ => ⟨0, 0⟩

unseal Rat.add Rat.mul Rat.inv in
/-- Counterexample to C8 as stated: a rating of 10 yields reward 10∕5 = 2,
outside [0,1], and `record_interaction` hands exactly that unclamped reward
to the bandit — no clamping is performed by the engine. -/
theorem C8_counterexample :
    RecommendationEngine.interaction_reward none (some 10) = 2
    ∧ ¬ (RecommendationEngine.interaction_reward none (some 10) ≤ 1)
    ∧ RecommendationEngine.record_interaction zero_arm_rewards "M1" none (some 10) "M1" =
        ⟨1, 2⟩ := by
  decide

/-- C8 (amended): the reward derivation is as claimed — 1.0 when liked,
0.0 when disliked, rating∕5 when only a rating is supplied, 0.5 when
neither is supplied (malformed payloads are not rejected) — and
`record_interaction` passes the derived reward to the bandit update
unchanged: NO clamping is performed anywhere, neither by the engine nor by
the bandit, so the reward handed to the bandit lies in [0,1] exactly on
the liked/none cases and on ratings within [0,5]. -/
theorem C8_reward (liked : Option Bool) (rating : ℚ) (maybe_rating : Option ℚ)
    (arm_rewards : String → ArmStats) (meal_id : String) :
    RecommendationEngine.interaction_reward (some true) maybe_rating = 1
    ∧ RecommendationEngine.interaction_reward (some false) maybe_rating = 0
    ∧ RecommendationEngine.interaction_reward none (some rating) = rating / 5
    ∧ RecommendationEngine.interaction_reward none none = 1/2
    ∧ RecommendationEngine.record_interaction arm_rewards meal_id liked maybe_rating meal_id =
        ⟨(arm_rewards meal_id).count + 1,
         (arm_rewards meal_id).sum_rewards +
           RecommendationEngine.interaction_reward liked maybe_rating⟩
    ∧ (0 ≤ rating → rating ≤ 5 →
        0 ≤ RecommendationEngine.interaction_reward none (some rating) ∧
        RecommendationEngine.interaction_reward none (some rating) ≤ 1) := by
  refine ⟨rfl, rfl, rfl, rfl, ?_, fun h0 h5 => ?_⟩
  · unfold RecommendationEngine.record_interaction ContextualBandit.update_feedback
    rw [if_pos rfl]
  · constructor
    · have : RecommendationEngine.interaction_reward none (some rating) = rating / 5 := rfl
      rw [this]
      exact div_nonneg h0 (by norm_num)
    · have : RecommendationEngine.interaction_reward none (some rating) = rating / 5 := rfl
      rw [this, div_le_one (by norm_num)]
      exact h5

/-- Witness for C8 at a concrete input: a legal rating of 4 gives a reward
within [0,1]. -/
theorem C8_reward_witness :
    0 ≤ RecommendationEngine.interaction_reward none (some 4) ∧
    RecommendationEngine.interaction_reward none (some 4) ≤ 1 :=
  (C8_reward none 4 none zero_arm_rewards "M1").2.2.2.2.2 (by norm_num) (by norm_num)

/-- C9: the engine degrades gracefully — a raising or empty catalog read
falls back to the built-in ten-row seed catalog (so the engine keeps
operating on non-null data), and an empty candidate set yields the empty
list; the embedding of `get_recommendations` is a total function, which is
the model of "never raises an exception to its caller". -/
theorem C9_graceful_degradation (e : String) (prefs : Option UserProfile) (limit : Nat) :
    RecommendationEngine.load_meals_data (Except.error e) = sample_meals
    ∧ RecommendationEngine.load_meals_data (Except.ok []) = sample_meals
    ∧ sample_meals ≠ []
    ∧ RecommendationEngine.get_recommendations [] prefs limit = []
    ∧ RecommendationEngine.get_recommendations
        (RecommendationEngine.load_meals_data (Except.error e)) prefs limit =
        RecommendationEngine.get_recommendations sample_meals prefs limit := by
  refine ⟨rfl, rfl, by simp [sample_meals], ?_, rfl⟩
  unfold RecommendationEngine.get_recommendations RecommendationEngine.filter_candidates
  simp
